import Mathlib

/-!
Verification of the `tzif-parser` repository against its natural-language
specification.  The Python sources are shallowly embedded: instants and naive
`datetime` values are modelled as `Int` epoch seconds (the sources only ever
build whole-second datetimes from decoded integers), fallible Python code is
modelled in `Except PyErr`, and each embedded definition mirrors one function
of the sources.
-/

set_option maxRecDepth 4096

/-- Error channel mirroring the Python exception classes raised by the code
under verification.  `UnicodeDecodeError` is a subclass of `ValueError` in
Python and is mapped to `valueError` here. -/
inductive PyErr where
  | valueError (msg : String)
  | overflowError
  | indexError (msg : String)
deriving DecidableEq, Repr

/-! ## Python calendar model

Python `datetime` objects are naive whole-second civil timestamps here,
represented as seconds since 1970-01-01.  The civil/day conversions follow the
standard proleptic-Gregorian algorithms; `datetime` construction and
arithmetic check Python's year-1..9999 range and raise `OverflowError`
(`ValueError` for the constructor) outside it, exactly as CPython does. -/

/-- Leap-year test as written in `posix.py` (`PosixTzJulianDateTime._is_leap_year`). -/
def is_leap_year (year : Int) : Bool :=
  year % 4 == 0 && (year % 100 != 0 || year % 400 == 0)

/-- Days from 1970-01-01 to the civil date `y-m-d` (proleptic Gregorian). -/
def daysFromCivil (y : Int) (m d : Nat) : Int :=
  let y2 : Int := if m ≤ 2 then y - 1 else y
  let era : Int := Int.fdiv y2 400
  let yoe : Int := y2 - era * 400
  let mp : Int := if m > 2 then (m : Int) - 3 else (m : Int) + 9
  let doy : Int := (153 * mp + 2) / 5 + (d : Int) - 1
  let doe : Int := yoe * 365 + yoe / 4 - yoe / 100 + doy
  era * 146097 + doe - 719468

/-- Civil date `(year, month, day)` of a day count from 1970-01-01. -/
def civilFromDays (z : Int) : Int × Nat × Nat :=
  let z2 : Int := z + 719468
  let era : Int := Int.fdiv z2 146097
  let doe : Int := z2 - era * 146097
  let yoe : Int := (doe - doe / 1460 + doe / 36524 - doe / 146096) / 365
  let y : Int := yoe + era * 400
  let doy : Int := doe - (365 * yoe + yoe / 4 - yoe / 100)
  let mp : Int := (5 * doy + 2) / 153
  let d : Int := doy - (153 * mp + 2) / 5 + 1
  let m : Int := if mp < 10 then mp + 3 else mp - 9
  (if m ≤ 2 then y + 1 else y, m.toNat, d.toNat)

/-- Year of a naive datetime given as epoch seconds (`datetime.year`). -/
def yearOfSecs (t : Int) : Int :=
  (civilFromDays (Int.fdiv t 86400)).1

/-- Python `datetime.weekday()` (Monday = 0 … Sunday = 6) of a day count;
1970-01-01 was a Thursday. -/
def weekdayOfDays (z : Int) : Int :=
  (z + 3).emod 7

/-- Smallest representable `datetime` (0001-01-01T00:00:00) in epoch seconds. -/
def pyDatetimeMinSecs : Int := -62135596800

/-- Largest representable whole-second `datetime` (9999-12-31T23:59:59). -/
def pyDatetimeMaxSecs : Int := 253402300799

/-- Range check shared by every Python `datetime` arithmetic operation:
results outside `datetime.min .. datetime.max` raise `OverflowError`. -/
def pyCheckRange (t : Int) : Except PyErr Int :=
  if pyDatetimeMinSecs ≤ t ∧ t ≤ pyDatetimeMaxSecs then .ok t
  else .error .overflowError

/-- Model of `_EPOCH + timedelta(seconds=t)` as used throughout
`tzif_body.py`: the sum overflows (raises) outside the datetime range. -/
def epochPlus (t : Int) : Except PyErr Int :=
  pyCheckRange t

/-- Model of `dt + timedelta(seconds=delta)` on naive datetimes. -/
def pyAddSecs (t delta : Int) : Except PyErr Int :=
  pyCheckRange (t + delta)

/-- Model of the `datetime(year, month, day)` constructor (only the checks the
sources can actually trip: year and month range; all call sites pass day 1 or
a valid day). -/
def mkDatetime (y : Int) (m d : Nat) : Except PyErr Int :=
  if 1 ≤ y ∧ y ≤ 9999 then
    if 1 ≤ m ∧ m ≤ 12 then .ok (daysFromCivil y m d * 86400)
    else .error (.valueError "month must be in 1..12")
  else .error (.valueError "year is out of range")

/-- Model of `dt.replace(hour=h, minute=m, second=s, microsecond=0)`: Python
validates each field against its calendar range and raises `ValueError`
otherwise; the date part of `dt` is kept. -/
def pyReplaceHms (t h m s : Int) : Except PyErr Int :=
  if 0 ≤ h ∧ h ≤ 23 ∧ 0 ≤ m ∧ m ≤ 59 ∧ 0 ≤ s ∧ s ≤ 59 then
    .ok ((Int.fdiv t 86400) * 86400 + h * 3600 + m * 60 + s)
  else .error (.valueError "hour/minute/second is out of range")

/-! ## Big-endian byte decoding (`struct.unpack`) -/

/-- Big-endian unsigned value of a byte list. -/
def beUnsigned (bs : List Nat) : Nat :=
  bs.foldl (fun a b => a * 256 + b) 0

/-- Big-endian two's-complement signed value of a byte list
(`struct.unpack` codes `i` and `q`). -/
def beSigned (bs : List Nat) : Int :=
  let u := beUnsigned bs
  if u < 2 ^ (8 * bs.length - 1) then (u : Int)
  else (u : Int) - 2 ^ (8 * bs.length)

/-! ## Data model (`models.py`, `tzif_header.py`, `tzif_body.py`) -/

/-- Embedding of `TimeTypeInfo` (`models.py`): a decoded ttinfo record. -/
structure TimeTypeInfo where
  utc_offset_secs : Int
  is_dst : Bool
  abbrev_index : Nat
deriving DecidableEq, Repr, Inhabited

/-- Embedding of `LeapSecondTransition` (`models.py`).  The Python dataclass
declares only the first two fields; `_read_leap_seconds` attaches
`is_expiration` dynamically to the final record, modelled here as a field that
defaults to `false`. -/
structure LeapSecondTransition where
  transition_time : Int
  correction : Int
  is_expiration : Bool := false
deriving DecidableEq, Repr

/-- Embedding of `TimeZoneInfoHeader` (`tzif_header.py`). -/
structure TimeZoneInfoHeader where
  version : Nat
  is_utc_flag_count : Nat
  wall_standard_flag_count : Nat
  leap_second_transitions_count : Nat
  transitions_count : Nat
  local_time_type_count : Nat
  timezone_abbrev_byte_count : Nat
deriving DecidableEq, Repr

/-- Embedding of `TimeZoneInfoBody` (`tzif_body.py`).  Transition times are
naive UTC datetimes, i.e. epoch seconds. -/
structure TimeZoneInfoBody where
  transition_times : List Int
  leap_second_transitions : List LeapSecondTransition
  time_type_infos : List TimeTypeInfo
  time_type_indices : List Nat
  timezone_abbrevs : String
  wall_standard_flags : List Nat
  is_utc_flags : List Nat
  leap_second_expiration : Option Int := none
deriving DecidableEq, Repr

/-- NUL character used by the abbreviation table. -/
def nulChar : Char := Char.ofNat 0

/-- Python `s[index:].partition("\x00")[0]`: the substring from `index` up to
(excluding) the first NUL, or to the end of the string when no NUL follows.
Python slicing never raises, even for `index ≥ len(s)`. -/
def abbrevSliceAt (s : String) (index : Nat) : String :=
  ((s.data.drop index).takeWhile (fun c => c ≠ nulChar)).asString

/-- Embedding of `TimeZoneInfoBody.get_abbrev_by_index`: unlike raw slicing it
checks the index against the table bounds and raises `IndexError`. -/
def get_abbrev_by_index (body : TimeZoneInfoBody) (index : Nat) : Except PyErr String :=
  if index ≥ body.timezone_abbrevs.data.length then
    .error (.indexError "Index out of range")
  else .ok (abbrevSliceAt body.timezone_abbrevs index)

/-- Embedding of the `TimeZoneInfoBody.timezone_abbrevs` property: resolve
every time-type's abbreviation index through `get_abbrev_by_index` and keep
the first occurrence of each distinct string. -/
def timezone_abbrevs_view (body : TimeZoneInfoBody) : Except PyErr (List String) :=
  body.time_type_infos.foldlM
    (fun seen ttinfo => do
      let abbr ← get_abbrev_by_index body ttinfo.abbrev_index
      pure (if abbr ∈ seen then seen else seen ++ [abbr]))
    []

/-- Number of list entries `≤ x` in a stop-at-first-failure scan; on a sorted
list this is exactly `bisect.bisect_right`. -/
def bisectRight (l : List Int) (x : Int) : Nat :=
  match l with
  | [] => 0
  | a :: t => if a ≤ x then bisectRight t x + 1 else 0

/-- Embedding of `TimeZoneInfoBody.find_transition_index`.  The Python
`replace`/`astimezone` normalisation is the identity on epoch seconds. -/
def find_transition_index (body : TimeZoneInfoBody) (dt : Int) : Option Nat :=
  let index := bisectRight body.transition_times dt
  if index = 0 then none else some (index - 1)

/-- Embedding of `TimeZoneInfoBody.find_leap_second_index`: each leap record's
raw instant is first converted with `_EPOCH + timedelta(...)` (which can
raise `OverflowError`), then an upper-bound search runs over the results. -/
def find_leap_second_index (body : TimeZoneInfoBody) (dt : Int) :
    Except PyErr (Option Nat) := do
  let timestamps ← body.leap_second_transitions.mapM
    (fun ls => epochPlus ls.transition_time)
  let index := bisectRight timestamps dt
  pure (if index = 0 then none else some (index - 1))

/-! ### Derived transition view (`tz_transition.py`)

`TimeZoneTransition` objects are built per transition index from the body
arrays; the fields used by the resolver are embedded as functions of the body
and the transition index. -/

/-- Type-table index of transition `i` (`time_type_indices[transition_index]`). -/
def ttIndexAt (body : TimeZoneInfoBody) (i : Nat) : Nat :=
  body.time_type_indices.getD i 0

/-- Time-type record of transition `i`
(`time_type_infos[time_type_indices[transition_index]]`). -/
def ttinfoAt (body : TimeZoneInfoBody) (i : Nat) : TimeTypeInfo :=
  body.time_type_infos.getD (ttIndexAt body i) default

/-- UTC instant of transition `i` (`TimeZoneTransition.transition_time_utc`). -/
def transition_time_utc (body : TimeZoneInfoBody) (i : Nat) : Int :=
  body.transition_times.getD i 0

/-- Embedding of `TimeZoneTransition.utc_offset_secs`. -/
def transition_utc_offset_secs (body : TimeZoneInfoBody) (i : Nat) : Int :=
  (ttinfoAt body i).utc_offset_secs

/-- Embedding of `TimeZoneTransition.is_dst`. -/
def transition_is_dst (body : TimeZoneInfoBody) (i : Nat) : Bool :=
  (ttinfoAt body i).is_dst

/-- Embedding of `TimeZoneTransition.abbreviation`
(`timezone_abbrevs[self.time_type_info.abbrev_index:].partition("\x00")[0]`). -/
def transition_abbreviation (body : TimeZoneInfoBody) (i : Nat) : String :=
  abbrevSliceAt body.timezone_abbrevs (ttinfoAt body i).abbrev_index

/-- Embedding of `TimeZoneTransition.dst_difference_secs`: `0` for a non-DST
transition; otherwise the signed offset difference from the previous
transition when that one's type is DST, else the signed offset difference to
the next transition when that one's type is DST, else the constant `3600`. -/
def dst_difference_secs (body : TimeZoneInfoBody) (i : Nat) : Int :=
  if ¬ transition_is_dst body i then 0
  else if 0 < i ∧ (ttinfoAt body (i - 1)).is_dst then
    transition_utc_offset_secs body i - transition_utc_offset_secs body (i - 1)
  else if i + 1 < body.time_type_indices.length ∧ (ttinfoAt body (i + 1)).is_dst then
    transition_utc_offset_secs body (i + 1) - transition_utc_offset_secs body i
  else 3600

/-! ## POSIX TZ rules (`posix.py`) -/

/-- Embedding of the three date-rule dataclasses of `posix.py`:
`PosixTzDateTime` (month/week/weekday), `PosixTzJulianDateTime` (`Jn`),
`PosixTzOrdinalDateTime` (bare ordinal). -/
inductive PosixRule where
  | mwd (month week weekday : Nat) (hour minute second : Int)
  | julian (day_of_year : Nat) (hour minute second : Int)
  | ordinal (day_index : Nat) (hour minute second : Int)
deriving DecidableEq, Repr

/-- Embedding of the `to_datetime(year)` methods of the three rule classes.
The month/week/weekday variant locates the calendar day with `timedelta`
arithmetic but installs the time of day with `datetime.replace`, which raises
`ValueError` for an hour outside 0..23 (or negative minutes/seconds).  The
Julian and ordinal variants add one `timedelta` carrying days and the time
fields. -/
def PosixRule.to_datetime (rule : PosixRule) (year : Int) : Except PyErr Int :=
  match rule with
  | .mwd month week weekday hour minute second => do
    let py_weekday : Int := ((weekday : Int) - 1).emod 7
    let first_of_month ← mkDatetime year month 1
    let first_wd : Int := weekdayOfDays (Int.fdiv first_of_month 86400)
    let delta : Int := (py_weekday - first_wd).emod 7
    let first_occurrence ← pyAddSecs first_of_month (delta * 86400)
    let target ←
      if week < 5 then
        pyAddSecs first_occurrence (7 * ((week : Int) - 1) * 86400)
      else do
        let next_month_first ←
          if month == 12 then mkDatetime (year + 1) 1 1
          else mkDatetime year (month + 1) 1
        let last_of_month ← pyAddSecs next_month_first (-86400)
        let last_wd : Int := weekdayOfDays (Int.fdiv last_of_month 86400)
        let back : Int := (last_wd - py_weekday).emod 7
        pyAddSecs last_of_month (-(back * 86400))
    pyReplaceHms target hour minute second
  | .julian day_of_year hour minute second => do
    let base ← mkDatetime year 1 1
    let day_index : Int :=
      (day_of_year : Int) - 1 +
        (if is_leap_year year && decide (day_of_year ≥ 60) then 1 else 0)
    pyAddSecs base (day_index * 86400 + hour * 3600 + minute * 60 + second)
  | .ordinal day_index hour minute second => do
    let base ← mkDatetime year 1 1
    pyAddSecs base ((day_index : Int) * 86400 + hour * 3600 + minute * 60 + second)

/-- Embedding of `PosixTzInfo` (`posix.py`). -/
structure PosixTzInfo where
  posix_string : String
  standard_abbrev : String
  utc_offset_secs : Int
  dst_abbrev : Option String
  dst_offset_secs : Option Int
  dst_start : Option PosixRule
  dst_end : Option PosixRule
deriving DecidableEq, Repr

/-- Digit value of a decimal character. -/
def digitVal (c : Char) : Nat := c.toNat - 48

/-- Full match of the shared regular expression
`(?P<sign>[+-])?(?P<h>\d{1,3})(:(?P<m>\d{2})(:(?P<s>\d{2}))?)?` used by both
`_read_offset` and `_read_dst_transition_time`: returns the optional sign and
the numeric hour/minute/second fields (missing groups default to 0), or
`none` when the string does not match. -/
def matchHms (s : List Char) : Option (Option Char × Nat × Nat × Nat) :=
  let (sign, rest) :=
    match s with
    | c :: r => if c = '+' ∨ c = '-' then (some c, r) else (none, s)
    | [] => (none, s)
  let digits := rest.takeWhile Char.isDigit
  let rest1 := rest.dropWhile Char.isDigit
  if digits.length < 1 ∨ digits.length > 3 then none
  else
    let h := digits.foldl (fun a c => a * 10 + digitVal c) 0
    match rest1 with
    | [] => some (sign, h, 0, 0)
    | ':' :: a :: b :: rest2 =>
      if a.isDigit ∧ b.isDigit then
        let m := digitVal a * 10 + digitVal b
        match rest2 with
        | [] => some (sign, h, m, 0)
        | ':' :: c :: d :: rest3 =>
          if c.isDigit ∧ d.isDigit ∧ rest3 = [] then
            some (sign, h, m, digitVal c * 10 + digitVal d)
          else none
        | _ => none
      else none
    | _ => none

/-- Embedding of `PosixTzInfo._read_offset`: parse the offset grammar, check
the POSIX bounds (hours ≤ 24, minutes/seconds 0..59, `24:00:00` only), and
apply the POSIX sign convention (no `-` sign means west of UTC, stored
negative). -/
def read_offset (s : String) : Except PyErr Int :=
  match matchHms s.data with
  | none => .error (.valueError "is not a valid offset")
  | some (sign, h, m, sec) =>
    if h > 24 then .error (.valueError "Offset hours must be in [0, 24]")
    else if ¬ (m < 60 ∧ sec < 60) then
      .error (.valueError "Offset minutes/seconds must be in [0, 59]")
    else if h = 24 ∧ (m ≠ 0 ∨ sec ≠ 0) then
      .error (.valueError "24-hour offsets must be 24:00[:00]")
    else
      let total : Int := (h : Int) * 3600 + (m : Int) * 60 + (sec : Int)
      .ok (if sign ≠ some '-' then -total else total)

/-- Embedding of `PosixTzInfo._read_dst_transition_time`: hours bounded by
167, minutes/seconds 0..59, and a leading `-` negating all three components
uniformly. -/
def read_dst_transition_time (s : String) : Except PyErr (Int × Int × Int) :=
  match matchHms s.data with
  | none => .error (.valueError "Invalid time")
  | some (sign, h, m, sec) =>
    if h > 167 then .error (.valueError "Hour must be in [0, 167]")
    else if ¬ (m < 60 ∧ sec < 60) then
      .error (.valueError "Minutes/seconds must be in [0, 59]")
    else if sign = some '-' then .ok (-(h : Int), -(m : Int), -(sec : Int))
    else .ok ((h : Int), (m : Int), (sec : Int))

/-! ## Body decoding (`TimeZoneInfoBody.read` and its helpers) -/

/-- Embedding of `TimeZoneInfoBody._read_transition_times`: unpack `timecnt`
big-endian signed integers (8 bytes each for version ≥ 2, else 4) and convert
each with `_EPOCH + timedelta(seconds=t)` — which raises `OverflowError` for
instants outside the datetime range; there is no clamping. -/
def read_transition_times (bytes : List Nat) (timecnt version : Nat) :
    Except PyErr (List Int) :=
  let width := if version ≥ 2 then 8 else 4
  if bytes.length ≠ width * timecnt then
    .error (.valueError "unpack requires a buffer of the right size")
  else
    ((List.range timecnt).map
      (fun i => beSigned ((bytes.drop (i * width)).take width))).mapM epochPlus

/-- Embedding of `TimeZoneInfoBody._read_time_type_indices`
(`list(file.read(timecnt))`, lenient on short reads). -/
def read_time_type_indices (bytes : List Nat) (timecnt : Nat) : List Nat :=
  bytes.take timecnt

/-- Embedding of `TimeZoneInfoBody._read_ttinfo_structures`: `typecnt` records
of format `>i?B` (4-byte signed offset, truthiness byte, unsigned index
byte). -/
def read_ttinfo_structures (bytes : List Nat) (typecnt : Nat) :
    Except PyErr (List TimeTypeInfo) :=
  if bytes.length < 6 * typecnt then
    .error (.valueError "unpack requires a buffer of the right size")
  else
    .ok ((List.range typecnt).map (fun i =>
      let chunk := (bytes.drop (i * 6)).take 6
      { utc_offset_secs := beSigned (chunk.take 4)
        is_dst := chunk.getD 4 0 ≠ 0
        abbrev_index := chunk.getD 5 0 }))

/-- Embedding of `TimeZoneInfoBody._read_tz_designations`
(`file.read(charcnt).decode("ascii")`). -/
def read_tz_designations (bytes : List Nat) (charcnt : Nat) :
    Except PyErr String :=
  let bs := bytes.take charcnt
  if bs.all (fun b => b < 128) then .ok ((bs.map Char.ofNat).asString)
  else .error (.valueError "ascii codec cannot decode byte")

/-- Record list built by `TimeZoneInfoBody._read_leap_seconds`: `count` pairs
of (8-or-4-byte big-endian signed instant, 4-byte correction). -/
def decode_leap_records (bytes : List Nat) (count version : Nat) :
    List LeapSecondTransition :=
  let tw := if version ≥ 2 then 8 else 4
  let size := tw + 4
  (List.range count).map (fun i =>
    let chunk := (bytes.drop (i * size)).take size
    { transition_time := beSigned (chunk.take tw)
      correction := beSigned (chunk.drop tw) })

/-- Embedding of the body of `_read_leap_seconds` after the record list is
built: Python indexes the final records as `leaps[-1]` and `leaps[-2]`. -/
def read_leap_seconds (bytes : List Nat) (count version : Nat) :
    Except PyErr (List LeapSecondTransition × Option Int) :=
  if count = 0 then .ok ([], none)
  else
    let tw := if version ≥ 2 then 8 else 4
    let size := tw + 4
    if bytes.length ≠ size * count then
      .error (.valueError "unpack requires a buffer of the right size")
    else
      let leaps := decode_leap_records bytes count version
      if version ≥ 4 ∧ leaps.length ≥ 2 then
        let last := leaps.getD (leaps.length - 1) ⟨0, 0, false⟩
        let previous := leaps.getD (leaps.length - 2) ⟨0, 0, false⟩
        if last.transition_time = previous.transition_time then do
          let expiration ← epochPlus last.transition_time
          pure (leaps.dropLast ++ [{ last with is_expiration := true }],
            some expiration)
        else .ok (leaps, none)
      else .ok (leaps, none)

/-- Embedding of `TimeZoneInfoBody._read_indicators`
(`list(file.read(count))`, lenient on short reads). -/
def read_indicators (bytes : List Nat) (count : Nat) : List Nat :=
  bytes.take count

/-- Embedding of `TimeZoneInfoBody.read`: decode the body sections in header
order from a byte stream, consuming the stream section by section. -/
def TimeZoneInfoBody.read (stream : List Nat) (header : TimeZoneInfoHeader)
    (version : Nat := 1) : Except PyErr TimeZoneInfoBody := do
  let tw := if version ≥ 2 then 8 else 4
  let timecnt := header.transitions_count
  let typecnt := header.local_time_type_count
  let charcnt := header.timezone_abbrev_byte_count
  let leapcnt := header.leap_second_transitions_count
  let leapsize := tw + 4
  let dst_transitions ←
    read_transition_times (stream.take (tw * timecnt)) timecnt version
  let s1 := stream.drop (tw * timecnt)
  let time_type_indices := read_time_type_indices (s1.take timecnt) timecnt
  let s2 := s1.drop timecnt
  let time_type_info ← read_ttinfo_structures (s2.take (6 * typecnt)) typecnt
  let s3 := s2.drop (6 * typecnt)
  let timezone_abbrevs ← read_tz_designations (s3.take charcnt) charcnt
  let s4 := s3.drop charcnt
  let (leap_second_transitions, leap_second_expiration) ←
    read_leap_seconds (s4.take (leapsize * leapcnt)) leapcnt version
  let s5 := s4.drop (leapsize * leapcnt)
  let wall_standard_flags :=
    read_indicators (s5.take header.wall_standard_flag_count)
      header.wall_standard_flag_count
  let s6 := s5.drop header.wall_standard_flag_count
  let is_utc_flags :=
    read_indicators (s6.take header.is_utc_flag_count) header.is_utc_flag_count
  pure
    { transition_times := dst_transitions
      leap_second_transitions := leap_second_transitions
      time_type_infos := time_type_info
      time_type_indices := time_type_indices
      timezone_abbrevs := timezone_abbrevs
      wall_standard_flags := wall_standard_flags
      is_utc_flags := is_utc_flags
      leap_second_expiration := leap_second_expiration }

/-! ## Resolution engine (`tzif.py`) -/

/-- Modelled from the spec: `TimeZoneResolution` is imported in `tzif.py` from
`.models` but its definition is absent from the sources.  The spec's
"Resolution (output value object)" lists exactly the fields the resolver
constructs positionally: timezone name, resolved UTC instant, derived naive
local civil time, UTC offset seconds, DST flag, nullable abbreviation, DST
delta seconds, and the nullable UTC instant of the next known transition. -/
structure TimeZoneResolution where
  timezone_name : String
  resolution_time : Int
  local_time : Int
  utc_offset_secs : Int
  is_dst : Bool
  abbreviation : Option String
  dst_difference_secs : Int
  next_transition : Option Int
deriving DecidableEq, Repr

/-- Embedding of `TimeZoneResolutionCache` (a `(cache_key, resolution)`
pair). -/
abbrev TimeZoneResolutionCache := Int × TimeZoneResolution

/-- Embedding of the `TimeZoneInfo` facade after version dispatch: the `body`
and `footer` properties select the authoritative (64-bit when version ≥ 2)
body and the parsed POSIX footer, which is what `resolve` consumes. -/
structure TimeZoneInfo where
  timezone_name : String
  body : TimeZoneInfoBody
  posix_tz_info : Option PosixTzInfo
deriving DecidableEq, Repr

/-- Embedding of `TimeZoneInfo._initial_tt_state`: pick the first non-DST
ttinfo if one exists (else ttinfo 0, raising `IndexError` when there are no
ttinfos at all), and return its offset, DST delta, abbreviation, and DST
flag; the abbreviation goes through `get_abbrev_by_index`. -/
def initial_tt_state (body : TimeZoneInfoBody) :
    Except PyErr (Int × Int × Option String × Bool) := do
  let std := body.time_type_infos.find? (fun x => ¬ x.is_dst)
  let tt ←
    match std with
    | some s => pure s
    | none =>
      match body.time_type_infos with
      | [] => Except.error (.indexError "list index out of range")
      | t :: _ => pure t
  let delta :=
    match std with
    | some s => if tt.is_dst then tt.utc_offset_secs - s.utc_offset_secs else 0
    | none => 0
  let abbr ← get_abbrev_by_index body tt.abbrev_index
  pure (tt.utc_offset_secs, delta, some abbr, tt.is_dst)

/-- Embedding of `TimeZoneInfo._posix_offsets`: standard offset, DST offset
(defaulting to standard + 3600), and their difference. -/
def posix_offsets (f : PosixTzInfo) : Int × Int × Int :=
  let std := f.utc_offset_secs
  let dst_offset := f.dst_offset_secs.getD (std + 3600)
  (std, dst_offset, dst_offset - std)

/-- Embedding of `TimeZoneInfo._posix_footer_state`: evaluate the footer's
start/end rules in the query's standard-local year, handle the wrapped
(southern-hemisphere) interval, and return the offset, delta, abbreviation
and DST flag for the query instant (`none` when there is no footer). -/
def posix_footer_state (footer : Option PosixTzInfo) (dt_utc : Int) :
    Except PyErr (Option (Int × Int × Option String × Bool)) :=
  match footer with
  | none => .ok none
  | some f => do
    let (std, dst_offset, dst_delta) := posix_offsets f
    let local_std ← pyAddSecs dt_utc std
    let in_dst ←
      match f.dst_start, f.dst_end with
      | some sr, some er => do
        let start ← sr.to_datetime (yearOfSecs local_std)
        let e0 ← er.to_datetime (yearOfSecs local_std)
        let e := e0 - dst_delta
        if start < e then pure (decide (start ≤ local_std ∧ local_std < e))
        else pure (decide (local_std ≥ start ∨ local_std < e))
      | _, _ => pure false
    if in_dst then
      let abbr :=
        match f.dst_abbrev with
        | some a => if a = "" then f.standard_abbrev else a
        | none => f.standard_abbrev
      pure (some (dst_offset, dst_delta, some abbr, true))
    else
      pure (some (std, 0, some f.standard_abbrev, false))

/-- Candidate boundaries `(sort key, local wall instant, offset on that side)`
contributed by one calendar year inside `_next_posix_transition_utc`; a
`ValueError` from either rule evaluation skips the year (the `try/except`),
while any other error (Python would see `OverflowError`) propagates. -/
def next_posix_candidates_for_year (sr er : PosixRule) (std dst_offset dst_delta : Int)
    (local_std : Int) (y : Int) : Except PyErr (List (Int × Int × Int)) :=
  match sr.to_datetime y with
  | .error (.valueError _) => .ok []
  | .error e => .error e
  | .ok start_y =>
    match er.to_datetime y with
    | .error (.valueError _) => .ok []
    | .error e => .error e
    | .ok end_y_dst =>
      let startCands := if start_y > local_std then [(start_y, start_y, std)] else []
      let end_y_std := end_y_dst - dst_delta
      let endCands :=
        if end_y_std > local_std then [(end_y_std, end_y_dst, dst_offset)] else []
      .ok (startCands ++ endCands)

/-- Python `min(candidates, key=lambda x: x[0])`: first minimum by the key. -/
def minByFst (head : Int × Int × Int) (rest : List (Int × Int × Int)) :
    Int × Int × Int :=
  rest.foldl (fun acc c => if c.1 < acc.1 then c else acc) head

/-- Embedding of `TimeZoneInfo._next_posix_transition_utc`: the next POSIX
rule boundary strictly after the query, searched over the query's
standard-local year and the following year, converted back to UTC with the
offset that applies on the boundary's own side. -/
def next_posix_transition_utc (footer : Option PosixTzInfo) (dt_utc : Int) :
    Except PyErr (Option Int) :=
  match footer with
  | none => .ok none
  | some f =>
    match f.dst_start, f.dst_end with
    | some sr, some er => do
      let (std, dst_offset, dst_delta) := posix_offsets f
      let local_std ← pyAddSecs dt_utc std
      let year := yearOfSecs local_std
      let c1 ←
        next_posix_candidates_for_year sr er std dst_offset dst_delta local_std year
      let c2 ←
        next_posix_candidates_for_year sr er std dst_offset dst_delta local_std
          (year + 1)
      match c1 ++ c2 with
      | [] => pure none
      | head :: rest =>
        let (_, local_wall, boundary_offset) := minByFst head rest
        pure (some (local_wall - boundary_offset))
    | _, _ => .ok none

/-- Embedding of `TimeZoneInfo._next_meaningful_body_transition`: the first
transition at or after `start_index` whose offset, DST delta, or abbreviation
differs from the current state. -/
def next_meaningful_body_transition (body : TimeZoneInfoBody) (start_index : Nat)
    (current_offset current_dst_diff : Int) (current_abbr : Option String) :
    Option Int :=
  ((List.range body.transition_times.length).drop start_index).findSome?
    (fun i =>
      if transition_utc_offset_secs body i ≠ current_offset ∨
          dst_difference_secs body i ≠ current_dst_diff ∨
          some (transition_abbreviation body i) ≠ current_abbr then
        some (transition_time_utc body i)
      else none)

/-- Cache-miss path of `TimeZoneInfo.resolve`: cases 0-4 of the algorithm
(no transitions / before first / between (inclusive of last) / after last
with footer / after last without footer), exactly as laid out in `tzif.py`
lines 258-382. -/
def resolve_compute (z : TimeZoneInfo) (dt_utc : Int) :
    Except PyErr TimeZoneResolution :=
  let body := z.body
  if body.transition_times.length = 0 then do
    let posix_state ← posix_footer_state z.posix_tz_info dt_utc
    let (off, delta, abbr, in_dst) ←
      match posix_state with
      | some s => pure s
      | none => initial_tt_state body
    let loc ← pyAddSecs dt_utc off
    let next_transition ← next_posix_transition_utc z.posix_tz_info dt_utc
    pure ⟨z.timezone_name, dt_utc, loc, off, in_dst, abbr, delta,
      next_transition⟩
  else
    let first := body.transition_times.getD 0 0
    let last := body.transition_times.getD (body.transition_times.length - 1) 0
    if dt_utc < first then do
      let (off, delta, abbr, in_dst) ← initial_tt_state body
      let loc ← pyAddSecs dt_utc off
      let next_transition := next_meaningful_body_transition body 0 off delta abbr
      pure ⟨z.timezone_name, dt_utc, loc, off, in_dst, abbr, delta,
        next_transition⟩
    else if dt_utc ≤ last then
      match find_transition_index body dt_utc with
      | none =>
        .error (.valueError "No valid transition found for the given datetime")
      | some tr_index => do
        let off := transition_utc_offset_secs body tr_index
        let delta :=
          if transition_is_dst body tr_index then dst_difference_secs body tr_index
          else 0
        let loc ← pyAddSecs dt_utc off
        let next_transition ←
          match next_meaningful_body_transition body (tr_index + 1) off delta
              (some (transition_abbreviation body tr_index)) with
          | some n => pure (some n)
          | none =>
            if z.posix_tz_info.isSome then
              next_posix_transition_utc z.posix_tz_info dt_utc
            else pure none
        pure ⟨z.timezone_name, dt_utc, loc, off, transition_is_dst body tr_index,
          some (transition_abbreviation body tr_index), delta, next_transition⟩
    else do
      let posix_state ← posix_footer_state z.posix_tz_info dt_utc
      match posix_state with
      | some (off, delta, abbr, in_dst) => do
        let loc ← pyAddSecs dt_utc off
        let next_transition ← next_posix_transition_utc z.posix_tz_info dt_utc
        pure ⟨z.timezone_name, dt_utc, loc, off, in_dst, abbr, delta,
          next_transition⟩
      | none => do
        let li := body.transition_times.length - 1
        let off := transition_utc_offset_secs body li
        let delta :=
          if transition_is_dst body li then dst_difference_secs body li else 0
        let loc ← pyAddSecs dt_utc off
        pure ⟨z.timezone_name, dt_utc, loc, off, transition_is_dst body li,
          some (transition_abbreviation body li), delta, none⟩

/-- Embedding of `TimeZoneInfo.resolve` with the one-slot cache made an
explicit argument and result (the Python method mutates
`self._last_resolution`).  Instants are whole seconds, so the cache key
equals the query instant.  A cache hit (exact key match, or query within
`[cached key, cached next transition)`) reuses the cached resolution with
only the resolution time and local time recomputed, and leaves the cache
slot unchanged; a miss recomputes and stores the fresh resolution. -/
def resolve (z : TimeZoneInfo) (cache : Option TimeZoneResolutionCache)
    (dt_utc : Int) :
    Except PyErr (TimeZoneResolution × Option TimeZoneResolutionCache) :=
  let onMiss : Except PyErr (TimeZoneResolution × Option TimeZoneResolutionCache) := do
    let res ← resolve_compute z dt_utc
    pure (res, some (dt_utc, res))
  match cache with
  | none => onMiss
  | some (cached_key, cached_res) =>
    if cached_key = dt_utc then do
      let loc ← pyAddSecs dt_utc cached_res.utc_offset_secs
      pure ({ cached_res with resolution_time := dt_utc, local_time := loc },
        cache)
    else
      match cached_res.next_transition with
      | some next_transition =>
        if cached_key ≤ dt_utc ∧ dt_utc < next_transition then do
          let loc ← pyAddSecs dt_utc cached_res.utc_offset_secs
          pure ({ cached_res with resolution_time := dt_utc, local_time := loc },
            cache)
        else onMiss
      | none => onMiss

/-! ## Auxiliary lemmas about the upper-bound search -/

theorem bisectRight_le_length (l : List Int) (x : Int) :
    bisectRight l x ≤ l.length := by
  induction l with
  | nil => simp [bisectRight]
  | cons a t ih =>
    by_cases h : a ≤ x <;> simp [bisectRight, h]
    omega

theorem getD_le_of_lt_bisectRight (l : List Int) (x d : Int) (j : Nat)
    (hj : j < bisectRight l x) : l.getD j d ≤ x := by
  induction l generalizing j with
  | nil => simp [bisectRight] at hj
  | cons a t ih =>
    simp only [bisectRight] at hj
    split at hj
    · cases j with
      | zero => simpa [List.getD_cons_zero] using ‹a ≤ x›
      | succ j =>
        simp only [List.getD_cons_succ]
        exact ih j (by omega)
    · omega

theorem lt_getD_of_bisectRight_le (l : List Int) (x d : Int)
    (hs : l.Pairwise (· ≤ ·)) (j : Nat) (h1 : bisectRight l x ≤ j)
    (h2 : j < l.length) : x < l.getD j d := by
  induction l generalizing j with
  | nil => simp at h2
  | cons a t ih =>
    obtain ⟨ha, ht⟩ := List.pairwise_cons.mp hs
    simp only [bisectRight] at h1
    split at h1
    · cases j with
      | zero => omega
      | succ j =>
        simp only [List.getD_cons_succ]
        exact ih ht j (by omega) (by simpa using h2)
    · cases j with
      | zero =>
        simpa [List.getD_cons_zero] using lt_of_not_le ‹¬ a ≤ x›
      | succ j =>
        have hj : j < t.length := by simpa using h2
        have hmem : t.getD j d ∈ t := by
          rw [List.getD_eq_getElem t d hj]
          exact List.getElem_mem hj
        have hax : x < a := lt_of_not_le ‹¬ a ≤ x›
        have : a ≤ t.getD j d := ha _ hmem
        rw [List.getD_cons_succ]
        omega

theorem bisectRight_pos_of_head_le (l : List Int) (x : Int)
    (hne : l ≠ []) (hx : l.getD 0 0 ≤ x) : 0 < bisectRight l x := by
  cases l with
  | nil => exact absurd rfl hne
  | cons a t =>
    simp only [List.getD_cons_zero] at hx
    simp [bisectRight, hx]

theorem find_transition_index_head_le (body : TimeZoneInfoBody) (dt : Int)
    (i : Nat) (h : find_transition_index body dt = some i) :
    body.transition_times ≠ [] ∧ body.transition_times.getD 0 0 ≤ dt := by
  unfold find_transition_index at h
  cases hl : body.transition_times with
  | nil =>
    rw [hl] at h
    simp [bisectRight] at h
  | cons a t =>
    rw [hl] at h
    refine ⟨by simp, ?_⟩
    simp only [List.getD_cons_zero]
    by_contra hax
    simp [bisectRight, hax] at h

theorem find_transition_index_eq (body : TimeZoneInfoBody) (dt : Int) (i : Nat)
    (h : find_transition_index body dt = some i) :
    i = bisectRight body.transition_times dt - 1 ∧
      0 < bisectRight body.transition_times dt := by
  unfold find_transition_index at h
  by_cases hz : bisectRight body.transition_times dt = 0
  · simp [hz] at h
  · simp only [if_neg hz] at h
    refine ⟨?_, Nat.pos_of_ne_zero hz⟩
    injection h with h
    omega

/-! ## Auxiliary lemmas about `Except` computations -/

theorem exceptBindError {α β : Type} {x : Except PyErr α}
    {f : α → Except PyErr β} {e : PyErr} (h : x >>= f = .error e) :
    x = .error e ∨ ∃ a, x = .ok a ∧ f a = .error e := by
  cases x with
  | error e2 =>
    left
    have : e2 = e := by
      simpa [Bind.bind, Except.bind] using h
    rw [this]
  | ok a =>
    right
    exact ⟨a, rfl, by simpa [Bind.bind, Except.bind] using h⟩

theorem exceptBindOk {α β : Type} {x : Except PyErr α}
    {f : α → Except PyErr β} {b : β} (h : x >>= f = .ok b) :
    ∃ a, x = .ok a ∧ f a = .ok b := by
  cases x with
  | error e2 => simp [Bind.bind, Except.bind] at h
  | ok a => exact ⟨a, rfl, by simpa [Bind.bind, Except.bind] using h⟩

/-- The `ValueError` message of the unreachable branch inside `resolve`'s
between-transitions case. -/
def noTransitionMsg : String := "No valid transition found for the given datetime"

/-- Errors other than the between-transitions `ValueError` of `resolve`. -/
def benignErr (e : PyErr) : Prop := e ≠ PyErr.valueError noTransitionMsg

theorem pyCheckRange_error {t : Int} {e : PyErr}
    (h : pyCheckRange t = .error e) : e = .overflowError := by
  unfold pyCheckRange at h
  split at h
  · cases h
  · injection h with h
    exact h.symm

theorem pyAddSecs_error {t d : Int} {e : PyErr}
    (h : pyAddSecs t d = .error e) : e = .overflowError :=
  pyCheckRange_error h

theorem mkDatetime_benign {y : Int} {m d : Nat} {e : PyErr}
    (h : mkDatetime y m d = .error e) : benignErr e := by
  unfold mkDatetime at h
  split at h
  · split at h
    · cases h
    · injection h with h
      rw [← h]
      unfold benignErr noTransitionMsg
      decide
  · injection h with h
    rw [← h]
    unfold benignErr noTransitionMsg
    decide

theorem pyReplaceHms_benign {t h1 m s : Int} {e : PyErr}
    (h : pyReplaceHms t h1 m s = .error e) : benignErr e := by
  unfold pyReplaceHms at h
  split at h
  · cases h
  · injection h with h
    rw [← h]
    unfold benignErr noTransitionMsg
    decide

theorem to_datetime_benign {r : PosixRule} {y : Int} {e : PyErr}
    (h : r.to_datetime y = .error e) : benignErr e := by
  have hover : benignErr PyErr.overflowError := by
    unfold benignErr noTransitionMsg
    decide
  cases r with
  | mwd month week weekday hour minute second =>
    simp only [PosixRule.to_datetime] at h
    rcases exceptBindError h with h1 | ⟨a, _, h1⟩
    · exact mkDatetime_benign h1
    · rcases exceptBindError h1 with h2 | ⟨b, _, h2⟩
      · exact pyAddSecs_error h2 ▸ hover
      · split at h2
        · rcases exceptBindError h2 with h3 | ⟨c, _, h3⟩
          · exact pyAddSecs_error h3 ▸ hover
          · exact pyReplaceHms_benign h3
        · split at h2 <;>
          · rcases exceptBindError h2 with h3 | ⟨c, _, h3⟩
            · exact mkDatetime_benign h3
            · rcases exceptBindError h3 with h4 | ⟨u, _, h4⟩
              · exact pyAddSecs_error h4 ▸ hover
              · rcases exceptBindError h4 with h5 | ⟨v, _, h5⟩
                · exact pyAddSecs_error h5 ▸ hover
                · exact pyReplaceHms_benign h5
  | julian day_of_year hour minute second =>
    simp only [PosixRule.to_datetime] at h
    rcases exceptBindError h with h1 | ⟨a, _, h1⟩
    · exact mkDatetime_benign h1
    · exact pyAddSecs_error h1 ▸ hover
  | ordinal day_index hour minute second =>
    simp only [PosixRule.to_datetime] at h
    rcases exceptBindError h with h1 | ⟨a, _, h1⟩
    · exact mkDatetime_benign h1
    · exact pyAddSecs_error h1 ▸ hover

theorem next_posix_candidates_benign {sr er : PosixRule}
    {std dst_offset dst_delta local_std y : Int} {e : PyErr}
    (h : next_posix_candidates_for_year sr er std dst_offset dst_delta local_std y =
      .error e) : benignErr e := by
  unfold next_posix_candidates_for_year at h
  split at h
  · cases h
  · injection h with h
    exact h ▸ to_datetime_benign (by assumption)
  · split at h
    · cases h
    · injection h with h
      exact h ▸ to_datetime_benign (by assumption)
    · cases h

theorem next_posix_transition_utc_benign {footer : Option PosixTzInfo}
    {dt : Int} {e : PyErr}
    (h : next_posix_transition_utc footer dt = .error e) : benignErr e := by
  have hover : benignErr PyErr.overflowError := by
    intro hc; cases hc
  unfold next_posix_transition_utc at h
  split at h
  · cases h
  · split at h
    · rcases exceptBindError h with h1 | ⟨a, _, h1⟩
      · exact pyAddSecs_error h1 ▸ hover
      · rcases exceptBindError h1 with h2 | ⟨b, _, h2⟩
        · exact next_posix_candidates_benign h2
        · rcases exceptBindError h2 with h3 | ⟨c, _, h3⟩
          · exact next_posix_candidates_benign h3
          · split at h3 <;> cases h3
    · cases h

/-- Resolution assembled by the between-transitions case of `resolve` for
active transition `i`, local time `loc`, and next transition `n`. -/
def case2_resolution (z : TimeZoneInfo) (dt : Int) (i : Nat) (loc n : Int) :
    TimeZoneResolution :=
  { timezone_name := z.timezone_name
    resolution_time := dt
    local_time := loc
    utc_offset_secs := transition_utc_offset_secs z.body i
    is_dst := transition_is_dst z.body i
    abbreviation := some (transition_abbreviation z.body i)
    dst_difference_secs :=
      if transition_is_dst z.body i then dst_difference_secs z.body i else 0
    next_transition := some n }

/-- Symbolic evaluation of `resolve_compute` in the between-transitions case:
when the transition search succeeds, the local-time addition succeeds, and a
meaningful later transition exists in the body, the resolution is assembled
from the found transition's fields. -/
theorem resolve_compute_case2 (z : TimeZoneInfo) (dt : Int) (i : Nat)
    (loc n : Int)
    (hfind : find_transition_index z.body dt = some i)
    (hlast : dt ≤ z.body.transition_times.getD
      (z.body.transition_times.length - 1) 0)
    (hnext : next_meaningful_body_transition z.body (i + 1)
        (transition_utc_offset_secs z.body i)
        (if transition_is_dst z.body i then dst_difference_secs z.body i else 0)
        (some (transition_abbreviation z.body i)) = some n)
    (hloc : pyAddSecs dt (transition_utc_offset_secs z.body i) = .ok loc) :
    resolve_compute z dt = .ok (case2_resolution z dt i loc n) := by
  unfold case2_resolution
  obtain ⟨hne, hfirst⟩ := find_transition_index_head_le z.body dt i hfind
  have hlen : ¬ z.body.transition_times.length = 0 := by
    intro h0
    exact hne (List.length_eq_zero.mp h0)
  unfold resolve_compute
  rw [if_neg hlen]
  dsimp only
  rw [if_neg (not_lt.mpr hfirst), if_pos hlast, hfind]
  dsimp only
  rw [hloc, hnext]
  rfl

/-! ## Spec-side definitions and concrete fixtures -/

/-- Spec-side description of the distinct-abbreviations table: map every
time-type's index through the NUL-terminated-substring reader and keep the
first occurrence of each distinct string. -/
def dedupFirst (l : List String) : List String :=
  l.foldl (fun acc a => if a ∈ acc then acc else acc ++ [a]) []

/-- Zone fixture mirroring the repository test `_leap_expiring_timezone`: no
transitions, no footer, a three-record leap table whose final record is an
expiration marker. -/
def exampleLeapZone : TimeZoneInfo :=
  { timezone_name := "Test/LeapExpiration"
    body :=
      { transition_times := []
        leap_second_transitions := [⟨10, 1, false⟩, ⟨20, 2, false⟩, ⟨20, 2, true⟩]
        time_type_infos := [⟨0, false, 0⟩]
        time_type_indices := []
        timezone_abbrevs := "UTC\x00"
        wall_standard_flags := [0]
        is_utc_flags := [0]
        leap_second_expiration := some 20 }
    posix_tz_info := none }

/-- Zone fixture for the cache claims: the middle transition flips only the
DST flag (offset, DST delta and abbreviation stay identical), so the
meaningful-transition scan skips it. -/
def cacheFlagZone : TimeZoneInfo :=
  { timezone_name := "Test/CacheFlag"
    body :=
      { transition_times := [100, 200, 300]
        leap_second_transitions := []
        time_type_infos := [⟨0, false, 0⟩, ⟨0, true, 0⟩, ⟨0, true, 4⟩]
        time_type_indices := [0, 1, 2]
        timezone_abbrevs := "AAA\x00BBB\x00"
        wall_standard_flags := []
        is_utc_flags := [] }
    posix_tz_info := none }

/-- Resolution returned by the cache-free computation of `cacheFlagZone` at
instant 150 (active transition 0, non-DST). -/
def cacheFlagRes150 : TimeZoneResolution :=
  { timezone_name := "Test/CacheFlag", resolution_time := 150, local_time := 150
    utc_offset_secs := 0, is_dst := false, abbreviation := some "AAA"
    dst_difference_secs := 0, next_transition := some 300 }

/-- Body fixture for the DST-delta claim: two consecutive DST transitions
whose offsets shrink from 7200 to 3600 seconds. -/
def dstDeltaBody : TimeZoneInfoBody :=
  { transition_times := [100, 200]
    leap_second_transitions := []
    time_type_infos := [⟨7200, true, 0⟩, ⟨3600, true, 0⟩]
    time_type_indices := [0, 1]
    timezone_abbrevs := "X\x00"
    wall_standard_flags := []
    is_utc_flags := [] }

/-- Body fixture whose two time types point at offsets 0 and 1 of the table
`"ABC\x00"`, so the second abbreviation is an overlapping suffix. -/
def overlapAbbrevBody : TimeZoneInfoBody :=
  { transition_times := []
    leap_second_transitions := []
    time_type_infos := [⟨0, false, 0⟩, ⟨0, true, 1⟩]
    time_type_indices := []
    timezone_abbrevs := "ABC\x00"
    wall_standard_flags := []
    is_utc_flags := [] }

/-- Byte stream of a body with one ttinfo record whose abbreviation index (4)
points one past the end of its 4-byte abbreviation table `"UTC\x00"`. -/
def outOfRangeAbbrevStream : List Nat :=
  [0, 0, 0, 0, 0, 4] ++ [85, 84, 67, 0]

/-- Header for `outOfRangeAbbrevStream`. -/
def outOfRangeAbbrevHeader : TimeZoneInfoHeader :=
  { version := 1, is_utc_flag_count := 0, wall_standard_flag_count := 0
    leap_second_transitions_count := 0, transitions_count := 0
    local_time_type_count := 1, timezone_abbrev_byte_count := 4 }

/-- Body decoded from `outOfRangeAbbrevStream`. -/
def outOfRangeAbbrevBody : TimeZoneInfoBody :=
  { transition_times := []
    leap_second_transitions := []
    time_type_infos := [⟨0, false, 4⟩]
    time_type_indices := []
    timezone_abbrevs := "UTC\x00"
    wall_standard_flags := []
    is_utc_flags := [] }

/-- Big-endian 64-bit encoding of the instant 10^12 seconds, far beyond
`datetime.max`. -/
def hugeInstantBytes : List Nat := [0, 0, 0, 232, 212, 165, 16, 0]

/-- Big-endian 64-bit encoding of the instant -10^12 seconds, far below
`datetime.min`. -/
def hugeNegInstantBytes : List Nat := [255, 255, 255, 23, 43, 90, 240, 0]

/-- Body with a single leap-second record at 10^12 seconds. -/
def hugeLeapBody : TimeZoneInfoBody :=
  { transition_times := []
    leap_second_transitions := [⟨1000000000000, 1, false⟩]
    time_type_infos := []
    time_type_indices := []
    timezone_abbrevs := ""
    wall_standard_flags := []
    is_utc_flags := [] }

/-- Version-2/3 leap section bytes: two `>qi` records sharing instant 100. -/
def equalLeapBytes : List Nat :=
  [0, 0, 0, 0, 0, 0, 0, 100] ++ [0, 0, 0, 1] ++
    [0, 0, 0, 0, 0, 0, 0, 100] ++ [0, 0, 0, 1]

deriving instance DecidableEq for Except

/-! ## Claim theorems -/

/-- C2: the claim (and the repository's own tests
`test_read_transition_times_clamps_out_of_range` and
`test_read_leap_seconds_clamps_out_of_range`) say out-of-range instants clamp
to the datetime bounds and never raise; the code instead raises
`OverflowError` at the instant 10^12 seconds in `_read_transition_times`, in
`_read_leap_seconds`' expiration conversion, and in
`find_leap_second_index`. -/
theorem overflow_instants_raise_instead_of_clamping :
    read_transition_times (hugeInstantBytes ++ hugeNegInstantBytes) 2 2 =
      .error .overflowError ∧
    read_leap_seconds
        (hugeInstantBytes ++ [0, 0, 0, 1] ++ hugeInstantBytes ++ [0, 0, 0, 1]) 2 4 =
      .error .overflowError ∧
    find_leap_second_index hugeLeapBody 0 = .error .overflowError ∧
    beSigned hugeInstantBytes = 1000000000000 ∧
    beSigned hugeNegInstantBytes = -1000000000000 ∧
    pyDatetimeMaxSecs < 1000000000000 := by
  refine ⟨by decide, by decide, by decide, by decide, by decide, by decide⟩

/-- C4: the claim (and the repository test
`test_posix_transition_time_supports_extended_hours`) say the
hour/minute/second offset of a month/week/weekday rule is applied as a
timestamp addition so out-of-range hours roll into the adjacent day; the code
instead installs the time of day with `datetime.replace`, which raises
`ValueError` for hour 26 and for a negative hour, while in-range hours work
(M3.2.0/2 in 2025 gives 2025-03-09T02:00:00). -/
theorem mwd_rule_hour_replace_raises :
    (PosixRule.mwd 3 2 0 26 0 0).to_datetime 2024 =
      .error (.valueError "hour/minute/second is out of range") ∧
    (PosixRule.mwd 3 2 0 (-2) 30 0).to_datetime 2024 =
      .error (.valueError "hour/minute/second is out of range") ∧
    (PosixRule.mwd 3 2 0 2 0 0).to_datetime 2025 =
      .ok (daysFromCivil 2025 3 9 * 86400 + 7200) ∧
    (PosixRule.mwd 3 2 0 26 0 0).to_datetime 2024 ≠
      .ok (daysFromCivil 2024 3 11 * 86400 + 7200) := by
  refine ⟨by decide, by decide, by decide, by decide⟩

/-- C5 counterexample: a version-2 leap table whose final two records share
instant 100 is decoded with no expiration marker and no recorded expiration,
contradicting the claim that the marker is applied for TZif versions 1-3. -/
theorem leap_expiration_not_marked_before_v4 :
    (read_leap_seconds equalLeapBytes 2 2).map
        (fun p => ((p.1.getD 1 ⟨0, 0, false⟩).is_expiration, p.2)) =
      .ok (false, none) ∧
    (Except.ok ((false, (none : Option Int))) :
        Except PyErr (Bool × Option Int)) ≠ .ok (true, some 100) := by
  refine ⟨by decide, by decide⟩

/-- C5 (amended): the decoder marks the final of two equal-instant trailing
leap records as an expiration marker, and records the expiration instant,
only when the declared version is at least 4; for versions 1-3 the records
come back unmarked with no expiration. -/
theorem read_leap_seconds_expiration_version_gate (bytes : List Nat)
    (count version : Nat) (hcnt : count ≠ 0)
    (hlen : bytes.length = ((if version ≥ 2 then 8 else 4) + 4) * count)
    (h2 : 2 ≤ count)
    (heq : ((decode_leap_records bytes count version).getD (count - 1)
        ⟨0, 0, false⟩).transition_time =
      ((decode_leap_records bytes count version).getD (count - 2)
        ⟨0, 0, false⟩).transition_time) :
    (version ≤ 3 →
      read_leap_seconds bytes count version =
        .ok (decode_leap_records bytes count version, none)) ∧
    (4 ≤ version → ∀ t,
      epochPlus (((decode_leap_records bytes count version).getD (count - 1)
          ⟨0, 0, false⟩).transition_time) = .ok t →
      read_leap_seconds bytes count version =
        .ok ((decode_leap_records bytes count version).dropLast ++
            [{ (decode_leap_records bytes count version).getD (count - 1)
                ⟨0, 0, false⟩ with is_expiration := true }],
          some t)) := by
  have hlength : (decode_leap_records bytes count version).length = count := by
    unfold decode_leap_records
    simp
  constructor
  · intro hv
    unfold read_leap_seconds
    rw [if_neg hcnt]
    dsimp only
    rw [if_neg (by omega : ¬ bytes.length ≠ ((if version ≥ 2 then 8 else 4) + 4) * count)]
    rw [if_neg (by omega : ¬ (version ≥ 4 ∧ (decode_leap_records bytes count version).length ≥ 2))]
  · intro hv t ht
    unfold read_leap_seconds
    rw [if_neg hcnt]
    dsimp only
    rw [if_neg (by omega : ¬ bytes.length ≠ ((if version ≥ 2 then 8 else 4) + 4) * count)]
    rw [if_pos (by constructor <;> omega)]
    simp only [hlength, heq, if_true]
    simp only [hlength, heq] at ht
    rw [ht]
    rfl

/-- C5 witness: the version-gate theorem applied to the concrete version-2
table with equal trailing instants. -/
theorem read_leap_seconds_expiration_version_gate_witness :
    read_leap_seconds equalLeapBytes 2 2 =
      .ok (decode_leap_records equalLeapBytes 2 2, none) :=
  (read_leap_seconds_expiration_version_gate equalLeapBytes 2 2 (by decide)
    (by decide) (by decide) (by decide)).1 (by decide)

/-- C8 counterexample: for a DST transition whose previous transition is also
DST with a larger offset, `dst_difference_secs` is the signed difference
(-3600), not the absolute difference (3600) the claim states. -/
theorem dst_difference_signed_not_absolute :
    dst_difference_secs dstDeltaBody 1 = -3600 ∧
    ((transition_utc_offset_secs dstDeltaBody 1 -
        transition_utc_offset_secs dstDeltaBody 0).natAbs : Int) = 3600 ∧
    dst_difference_secs dstDeltaBody 1 ≠
      ((transition_utc_offset_secs dstDeltaBody 1 -
        transition_utc_offset_secs dstDeltaBody 0).natAbs : Int) := by
  refine ⟨by decide, by decide, by decide⟩

/-- C8 (amended): `dst_difference_secs` is 0 for a non-DST transition and,
for a DST transition, prefers in order the signed offset difference from the
previous transition when that neighbour's type is DST, else the signed offset
difference to the next transition when that neighbour's type is DST, else the
constant 3600. -/
theorem dst_difference_preference_order (body : TimeZoneInfoBody) (i : Nat) :
    (transition_is_dst body i = false → dst_difference_secs body i = 0) ∧
    (transition_is_dst body i = true →
      (0 < i ∧ (ttinfoAt body (i - 1)).is_dst = true →
        dst_difference_secs body i =
          transition_utc_offset_secs body i - transition_utc_offset_secs body (i - 1)) ∧
      (¬ (0 < i ∧ (ttinfoAt body (i - 1)).is_dst = true) →
        (i + 1 < body.time_type_indices.length ∧ (ttinfoAt body (i + 1)).is_dst = true →
          dst_difference_secs body i =
            transition_utc_offset_secs body (i + 1) - transition_utc_offset_secs body i) ∧
        (¬ (i + 1 < body.time_type_indices.length ∧
            (ttinfoAt body (i + 1)).is_dst = true) →
          dst_difference_secs body i = 3600))) := by
  refine ⟨?_, ?_⟩
  · intro h
    simp [dst_difference_secs, h]
  · intro h
    refine ⟨?_, ?_⟩
    · intro hp
      simp [dst_difference_secs, h, hp]
    · intro hp
      refine ⟨?_, ?_⟩
      · intro hnx
        simp [dst_difference_secs, h, hp, hnx]
      · intro hnx
        simp [dst_difference_secs, h, hp, hnx]

/-- C8 witness: the preference-order theorem applied to the concrete body
whose DST transition follows another DST transition. -/
theorem dst_difference_preference_order_witness :
    dst_difference_secs dstDeltaBody 1 =
      transition_utc_offset_secs dstDeltaBody 1 -
        transition_utc_offset_secs dstDeltaBody 0 :=
  ((dst_difference_preference_order dstDeltaBody 1).2 (by decide)).1 (by decide)

/-- C3 counterexample: on a zone with leap records (10, +1), (20, +2) and an
expiration marker, resolving instant 15 (where the claim says correction +1
applies and the next leap instant 20 bounds the resolution) returns local
time 15 with no correction and no next transition. -/
theorem resolve_ignores_leap_correction_counterexample :
    (resolve exampleLeapZone none 15).map
        (fun p => (p.1.local_time, p.1.next_transition, p.1.utc_offset_secs)) =
      .ok (15, none, 0) ∧
    (Except.ok (((15 : Int), (none : Option Int), (0 : Int))) :
        Except PyErr (Int × Option Int × Int)) ≠ .ok (16, some 20, 0) := by
  refine ⟨by decide, by decide⟩

/-- C3 (amended): `resolve` never consults the leap-second table: the result
(and the cache it stores) is unchanged under replacing the zone's leap
records and expiration with anything, so no leap correction enters the local
time and no leap instant enters the next transition. -/
theorem resolve_ignores_leap_table (z : TimeZoneInfo)
    (cache : Option TimeZoneResolutionCache) (dt : Int)
    (leaps : List LeapSecondTransition) (exp : Option Int) :
    resolve { z with body := { z.body with
        leap_second_transitions := leaps, leap_second_expiration := exp } }
        cache dt =
      resolve z cache dt := rfl

/-- C7: offset parsing follows the POSIX sign convention ("5" and "+5" give
-18000, "-02:30" gives +9000); any parsed offset with hours above 24,
minutes/seconds outside 0-59, or a 24-hour value with nonzero
minutes/seconds raises `ValueError`; transition-time parsing accepts 167
hours, rejects 168, and a leading '-' negates hours, minutes and seconds
uniformly. -/
theorem posix_offset_and_transition_time_parsing :
    read_offset "5" = .ok (-18000) ∧
    read_offset "+5" = .ok (-18000) ∧
    read_offset "-02:30" = .ok 9000 ∧
    (∀ (s : String) (sign : Option Char) (hrs mins secs : Nat),
      matchHms s.data = some (sign, hrs, mins, secs) →
      24 < hrs ∨ 60 ≤ mins ∨ 60 ≤ secs ∨ (hrs = 24 ∧ (mins ≠ 0 ∨ secs ≠ 0)) →
      ∃ msg, read_offset s = .error (.valueError msg)) ∧
    read_dst_transition_time "167" = .ok (167, 0, 0) ∧
    (∃ msg, read_dst_transition_time "168" = .error (.valueError msg)) ∧
    (∀ (s : String) (hrs mins secs : Nat),
      matchHms s.data = some (some '-', hrs, mins, secs) →
      hrs ≤ 167 → mins < 60 → secs < 60 →
      read_dst_transition_time s =
        .ok (-(hrs : Int), -(mins : Int), -(secs : Int))) := by
  refine ⟨by decide, by decide, by decide, ?_, by decide,
    ⟨"Hour must be in [0, 167]", by decide⟩, ?_⟩
  · intro s sign hrs mins secs hmatch hbad
    unfold read_offset
    rw [hmatch]
    dsimp only
    by_cases h24 : 24 < hrs
    · exact ⟨_, by rw [if_pos h24]⟩
    · by_cases hms : mins < 60 ∧ secs < 60
      · have h24eq : hrs = 24 ∧ (mins ≠ 0 ∨ secs ≠ 0) := by
          rcases hbad with hb | hb | hb | hb
          · omega
          · omega
          · omega
          · exact hb
        exact ⟨_, by rw [if_neg h24, if_neg (not_not_intro hms), if_pos h24eq]⟩
      · exact ⟨_, by rw [if_neg h24, if_pos hms]⟩
  · intro s hrs mins secs hmatch h167 hm hs
    unfold read_dst_transition_time
    rw [hmatch]
    dsimp only
    rw [if_neg (by omega), if_neg (not_not_intro ⟨hm, hs⟩), if_pos rfl]

/-- Success of the deduplicating fold of `timezone_abbrevs` when every
abbreviation index is inside the table. -/
theorem timezone_abbrevs_view_aux (body : TimeZoneInfoBody)
    (infos : List TimeTypeInfo)
    (hwf : ∀ tt ∈ infos, tt.abbrev_index < body.timezone_abbrevs.data.length) :
    ∀ seen : List String,
      infos.foldlM (fun seen ttinfo => do
          let abbr ← get_abbrev_by_index body ttinfo.abbrev_index
          pure (if abbr ∈ seen then seen else seen ++ [abbr])) seen =
        .ok (infos.foldl (fun seen ttinfo =>
          let abbr := abbrevSliceAt body.timezone_abbrevs ttinfo.abbrev_index
          if abbr ∈ seen then seen else seen ++ [abbr]) seen) := by
  induction infos with
  | nil => intro seen; rfl
  | cons tt rest ih =>
    intro seen
    have hidx : tt.abbrev_index < body.timezone_abbrevs.data.length :=
      hwf tt (by simp)
    have hget : get_abbrev_by_index body tt.abbrev_index =
        .ok (abbrevSliceAt body.timezone_abbrevs tt.abbrev_index) := by
      unfold get_abbrev_by_index
      rw [if_neg (by omega)]
    rw [List.foldlM_cons, List.foldl_cons, hget]
    show rest.foldlM _ _ = _
    exact ih (fun t ht => hwf t (by simp [ht])) _

/-- C1 (amended): for every body whose time-type abbreviation indices all lie
inside the abbreviation table, the bounds-checked accessor agrees with the
NUL-terminated-substring slice (so the accesses succeed), each transition's
abbreviation is that slice at its record's index, and the public distinct
view is exactly the slices of every time-type's index de-duplicated by value
keeping first occurrences. -/
theorem abbreviation_access_and_distinct_table (body : TimeZoneInfoBody)
    (hwf : ∀ tt ∈ body.time_type_infos,
      tt.abbrev_index < body.timezone_abbrevs.data.length) :
    (∀ index, index < body.timezone_abbrevs.data.length →
      get_abbrev_by_index body index =
        .ok (abbrevSliceAt body.timezone_abbrevs index)) ∧
    (∀ i, transition_abbreviation body i =
      abbrevSliceAt body.timezone_abbrevs (ttinfoAt body i).abbrev_index) ∧
    timezone_abbrevs_view body =
      .ok (dedupFirst (body.time_type_infos.map
        (fun tt => abbrevSliceAt body.timezone_abbrevs tt.abbrev_index))) := by
  refine ⟨?_, fun i => rfl, ?_⟩
  · intro index hidx
    unfold get_abbrev_by_index
    rw [if_neg (by omega)]
  · unfold timezone_abbrevs_view
    rw [timezone_abbrevs_view_aux body body.time_type_infos hwf []]
    congr 1
    unfold dedupFirst
    rw [List.foldl_map]

/-- C1 witness: the distinct-view theorem applied to the body whose second
index points into the middle of "ABC", yielding the overlapping suffix "BC"
as its own entry. -/
theorem abbreviation_access_witness :
    timezone_abbrevs_view overlapAbbrevBody = .ok ["ABC", "BC"] :=
  ((abbreviation_access_and_distinct_table overlapAbbrevBody
    (by decide)).2.2).trans (by decide)

/-- C1 counterexample: the body decoder accepts a time-type whose
abbreviation index (4) equals the table length, and the public
distinct-abbreviations view then raises `IndexError` instead of succeeding. -/
theorem decoded_abbrev_index_out_of_range_raises :
    TimeZoneInfoBody.read outOfRangeAbbrevStream outOfRangeAbbrevHeader 1 =
      .ok outOfRangeAbbrevBody ∧
    timezone_abbrevs_view outOfRangeAbbrevBody =
      .error (.indexError "Index out of range") := by
  refine ⟨by decide, by decide⟩

/-- C10: whenever the query lies between the first and last transition
instants (inclusive), `find_transition_index` returns an index, and the
between-transitions case of `resolve` can only fail with errors other than
its "No valid transition found" `ValueError` — that branch is unreachable. -/
theorem between_bounds_no_valid_transition_unreachable (z : TimeZoneInfo)
    (dt : Int) (hne : z.body.transition_times ≠ [])
    (hfirst : z.body.transition_times.getD 0 0 ≤ dt)
    (hlast : dt ≤ z.body.transition_times.getD
      (z.body.transition_times.length - 1) 0) :
    (∃ i, find_transition_index z.body dt = some i) ∧
    (∀ e, resolve_compute z dt = .error e → benignErr e) := by
  have hpos := bisectRight_pos_of_head_le z.body.transition_times dt hne hfirst
  have hfind : find_transition_index z.body dt =
      some (bisectRight z.body.transition_times dt - 1) := by
    unfold find_transition_index
    rw [if_neg (by omega)]
  refine ⟨⟨_, hfind⟩, ?_⟩
  intro e he
  have hlen : ¬ z.body.transition_times.length = 0 := by
    intro h0
    exact hne (List.length_eq_zero.mp h0)
  unfold resolve_compute at he
  rw [if_neg hlen] at he
  dsimp only at he
  rw [if_neg (not_lt.mpr hfirst), if_pos hlast, hfind] at he
  dsimp only at he
  rcases exceptBindError he with h1 | ⟨loc, hl, h1⟩
  · rw [pyAddSecs_error h1]
    unfold benignErr noTransitionMsg
    decide
  · split at h1
    · simp [pure, Except.pure, bind, Except.bind] at h1
    · split at h1
      · rcases exceptBindError h1 with h2 | ⟨nx, hn, h2⟩
        · exact next_posix_transition_utc_benign h2
        · simp [pure, Except.pure] at h2
      · simp [pure, Except.pure, bind, Except.bind] at h1

/-- C10 witness: the theorem applied to a concrete zone and an instant
between its first and last transition instants. -/
theorem between_bounds_no_valid_transition_unreachable_witness :
    (∃ i, find_transition_index cacheFlagZone.body 150 = some i) ∧
    (∀ e, resolve_compute cacheFlagZone 150 = .error e → benignErr e) :=
  between_bounds_no_valid_transition_unreachable cacheFlagZone 150 (by decide)
    (by decide) (by decide)

/-- Monotonicity of indexed access on a sorted list. -/
theorem pairwise_getD_mono (l : List Int) (hs : l.Pairwise (· ≤ ·)) (i j : Nat)
    (hij : i ≤ j) (hj : j < l.length) : l.getD i 0 ≤ l.getD j 0 := by
  rcases Nat.eq_or_lt_of_le hij with rfl | hlt
  · exact le_refl _
  · rw [List.getD_eq_getElem l 0 (lt_of_le_of_lt hij hj),
      List.getD_eq_getElem l 0 hj]
    exact List.pairwise_iff_getElem.mp hs i j _ hj hlt

/-- C6: on a sorted transition list, `find_transition_index` returns `none`
for queries before the first instant and otherwise the greatest index whose
instant is at most the query (so equal-instant ties resolve to the
upper-bound-minus-one index); consequently a cache-free `resolve` at an exact
transition instant reports the offset, DST flag and abbreviation of that
latest tied transition — the new type, never the previous one. -/
theorem find_transition_upper_bound_and_new_type (z : TimeZoneInfo)
    (hsorted : z.body.transition_times.Pairwise (· ≤ ·)) :
    (∀ q : Int, z.body.transition_times ≠ [] →
      q < z.body.transition_times.getD 0 0 →
      find_transition_index z.body q = none) ∧
    (∀ (q : Int) (i : Nat), find_transition_index z.body q = some i →
      i < z.body.transition_times.length ∧
      z.body.transition_times.getD i 0 ≤ q ∧
      ∀ j < z.body.transition_times.length,
        z.body.transition_times.getD j 0 ≤ q → j ≤ i) ∧
    (∀ q : Int, z.body.transition_times ≠ [] →
      z.body.transition_times.getD 0 0 ≤ q →
      ∃ i, find_transition_index z.body q = some i) ∧
    (∀ t : Int, t ∈ z.body.transition_times →
      ∀ r c, resolve z none t = .ok (r, c) →
        ∃ j, find_transition_index z.body t = some j ∧
          z.body.transition_times.getD j 0 = t ∧
          (∀ k < z.body.transition_times.length,
            z.body.transition_times.getD k 0 ≤ t → k ≤ j) ∧
          r.utc_offset_secs = transition_utc_offset_secs z.body j ∧
          r.is_dst = transition_is_dst z.body j ∧
          r.abbreviation = some (transition_abbreviation z.body j)) := by
  have hmax : ∀ (q : Int) (i : Nat), find_transition_index z.body q = some i →
      i < z.body.transition_times.length ∧
      z.body.transition_times.getD i 0 ≤ q ∧
      ∀ j < z.body.transition_times.length,
        z.body.transition_times.getD j 0 ≤ q → j ≤ i := by
    intro q i hfind
    obtain ⟨hi, hk⟩ := find_transition_index_eq z.body q i hfind
    have hkle := bisectRight_le_length z.body.transition_times q
    subst hi
    refine ⟨by omega, getD_le_of_lt_bisectRight _ _ _ _ (by omega), ?_⟩
    intro j hj hjq
    by_contra hgt
    have := lt_getD_of_bisectRight_le z.body.transition_times q 0 hsorted j
      (by omega) hj
    omega
  refine ⟨?_, hmax, ?_, ?_⟩
  · intro q hne hq
    unfold find_transition_index
    cases hl : z.body.transition_times with
    | nil => simp [hl] at hne
    | cons a t =>
      rw [hl] at hq
      simp only [List.getD_cons_zero] at hq
      simp [bisectRight, not_le.mpr hq]
  · intro q hne hq
    have hpos := bisectRight_pos_of_head_le z.body.transition_times q hne hq
    refine ⟨bisectRight z.body.transition_times q - 1, ?_⟩
    unfold find_transition_index
    rw [if_neg (by omega)]
  · intro t hmem r c hres
    obtain ⟨m, hm, hgm⟩ := List.mem_iff_getElem.mp hmem
    have hgmD : z.body.transition_times.getD m 0 = t := by
      rw [List.getD_eq_getElem _ 0 hm, hgm]
    have hne : z.body.transition_times ≠ [] := by
      intro h0
      rw [h0] at hmem
      cases hmem
    have hfirst : z.body.transition_times.getD 0 0 ≤ t := by
      have := pairwise_getD_mono z.body.transition_times hsorted 0 m
        (Nat.zero_le m) hm
      omega
    have hlast : t ≤ z.body.transition_times.getD
        (z.body.transition_times.length - 1) 0 := by
      have := pairwise_getD_mono z.body.transition_times hsorted m
        (z.body.transition_times.length - 1) (by omega) (by omega)
      omega
    have hpos := bisectRight_pos_of_head_le z.body.transition_times t hne hfirst
    have hkle := bisectRight_le_length z.body.transition_times t
    have hfind : find_transition_index z.body t =
        some (bisectRight z.body.transition_times t - 1) := by
      unfold find_transition_index
      rw [if_neg (by omega)]
    obtain ⟨hjlt, hjle, hjmax⟩ := hmax t _ hfind
    have hmj : m ≤ bisectRight z.body.transition_times t - 1 :=
      hjmax m hm (le_of_eq hgmD)
    have hjt : z.body.transition_times.getD
        (bisectRight z.body.transition_times t - 1) 0 = t := by
      have hmono := pairwise_getD_mono z.body.transition_times hsorted m
        (bisectRight z.body.transition_times t - 1) hmj hjlt
      omega
    refine ⟨bisectRight z.body.transition_times t - 1, hfind, hjt, hjmax,
      ?_, ?_, ?_⟩ <;>
    · have hcompute : resolve_compute z t = .ok r := by
        unfold resolve at hres
        dsimp only at hres
        rcases hc : resolve_compute z t with e | res
        · rw [hc] at hres
          simp [bind, Except.bind] at hres
        · rw [hc] at hres
          simp only [bind, Except.bind, pure, Except.pure] at hres
          injection hres with hres
          have hres2 : res = r := congrArg Prod.fst hres
          rw [hres2]
      have hlen : ¬ z.body.transition_times.length = 0 := by
        intro h0
        exact hne (List.length_eq_zero.mp h0)
      unfold resolve_compute at hcompute
      rw [if_neg hlen] at hcompute
      dsimp only at hcompute
      rw [if_neg (not_lt.mpr hfirst), if_pos hlast, hfind] at hcompute
      dsimp only at hcompute
      rcases exceptBindOk hcompute with ⟨loc, hloc, h1⟩
      split at h1
      · simp only [bind, Except.bind, pure, Except.pure] at h1
        injection h1 with h1
        rw [← h1]
      · split at h1
        · rcases exceptBindOk h1 with ⟨nx, hnx, h2⟩
          simp only [pure, Except.pure] at h2
          injection h2 with h2
          rw [← h2]
        · simp only [bind, Except.bind, pure, Except.pure] at h1
          injection h1 with h1
          rw [← h1]

/-- Resolution returned at instant 300 (the exact last transition instant) of
`cacheFlagZone`: the new type (DST, abbreviation "BBB") applies. -/
def cacheFlagRes300 : TimeZoneResolution :=
  { timezone_name := "Test/CacheFlag", resolution_time := 300, local_time := 300
    utc_offset_secs := 0, is_dst := true, abbreviation := some "BBB"
    dst_difference_secs := 0, next_transition := none }

/-- C6 witness: the upper-bound theorem applied to `cacheFlagZone` at the
exact transition instant 300. -/
theorem find_transition_upper_bound_and_new_type_witness :
    ∃ j, find_transition_index cacheFlagZone.body 300 = some j ∧
      cacheFlagZone.body.transition_times.getD j 0 = 300 ∧
      (∀ k < cacheFlagZone.body.transition_times.length,
        cacheFlagZone.body.transition_times.getD k 0 ≤ 300 → k ≤ j) ∧
      cacheFlagRes300.utc_offset_secs =
        transition_utc_offset_secs cacheFlagZone.body j ∧
      cacheFlagRes300.is_dst = transition_is_dst cacheFlagZone.body j ∧
      cacheFlagRes300.abbreviation =
        some (transition_abbreviation cacheFlagZone.body j) :=
  (find_transition_upper_bound_and_new_type cacheFlagZone (by decide)).2.2.2 300
    (by decide) cacheFlagRes300 (some (300, cacheFlagRes300)) (by decide)

/-- C9 counterexample: after resolving instant 150 of `cacheFlagZone`, a
cache hit at instant 250 reports the cached DST flag `false`, while the
cache-free computation at 250 (whose active transition flips only the DST
flag) reports `true` — the cache is not a pure optimization. -/
theorem cache_returns_stale_dst_flag :
    resolve cacheFlagZone none 150 =
      .ok (cacheFlagRes150, some (150, cacheFlagRes150)) ∧
    (resolve cacheFlagZone (some (150, cacheFlagRes150)) 250).map
        (fun p => p.1.is_dst) = .ok false ∧
    (resolve cacheFlagZone none 250).map (fun p => p.1.is_dst) = .ok true ∧
    (Except.ok false : Except PyErr Bool) ≠ .ok true := by
  refine ⟨by decide, by decide, by decide, by decide⟩

/-- C9 (amended): the cache hit is equivalent to the cache-free computation
whenever both the cached and the queried instant resolve to the same body
transition and the cached window is bounded by a meaningful body-derived
next transition: the warm-cache resolution at `t1` equals the cache-free
resolution at `t1`. -/
theorem cache_hit_same_transition_consistent (z : TimeZoneInfo)
    (t0 t1 n : Int) (i : Nat) (loc0 loc1 : Int)
    (hf0 : find_transition_index z.body t0 = some i)
    (hf1 : find_transition_index z.body t1 = some i)
    (hl0 : t0 ≤ z.body.transition_times.getD
      (z.body.transition_times.length - 1) 0)
    (hl1 : t1 ≤ z.body.transition_times.getD
      (z.body.transition_times.length - 1) 0)
    (hnext : next_meaningful_body_transition z.body (i + 1)
        (transition_utc_offset_secs z.body i)
        (if transition_is_dst z.body i then dst_difference_secs z.body i else 0)
        (some (transition_abbreviation z.body i)) = some n)
    (hloc0 : pyAddSecs t0 (transition_utc_offset_secs z.body i) = .ok loc0)
    (hloc1 : pyAddSecs t1 (transition_utc_offset_secs z.body i) = .ok loc1)
    (h01 : t0 ≤ t1) (h1n : t1 < n) :
    ∃ r0 r1, resolve z none t0 = .ok (r0, some (t0, r0)) ∧
      resolve z none t1 = .ok (r1, some (t1, r1)) ∧
      resolve z (some (t0, r0)) t1 = .ok (r1, some (t0, r0)) := by
  have hc0 := resolve_compute_case2 z t0 i loc0 n hf0 hl0 hnext hloc0
  have hc1 := resolve_compute_case2 z t1 i loc1 n hf1 hl1 hnext hloc1
  refine ⟨case2_resolution z t0 i loc0 n, case2_resolution z t1 i loc1 n,
    ?_, ?_, ?_⟩
  · unfold resolve
    rw [hc0]
    rfl
  · unfold resolve
    rw [hc1]
    rfl
  · unfold resolve
    dsimp only
    by_cases heq : t0 = t1
    · rw [if_pos heq]
      rw [heq]
      dsimp only [case2_resolution]
      rw [hloc1]
      rfl
    · rw [if_neg heq]
      dsimp only [case2_resolution]
      rw [if_pos ⟨h01, h1n⟩]
      rw [hloc1]
      rfl

/-- C9 witness: the same-transition cache theorem applied to `cacheFlagZone`
with a cached instant 150 and a query 180 inside the cached window. -/
theorem cache_hit_same_transition_consistent_witness :
    ∃ r0 r1, resolve cacheFlagZone none 150 = .ok (r0, some (150, r0)) ∧
      resolve cacheFlagZone none 180 = .ok (r1, some (180, r1)) ∧
      resolve cacheFlagZone (some (150, r0)) 180 = .ok (r1, some (150, r0)) :=
  cache_hit_same_transition_consistent cacheFlagZone 150 180 300 0 150 180
    (by decide) (by decide) (by decide) (by decide) (by decide) (by decide)
    (by decide) (by decide) (by decide)

/-- C7 witness: the parsing theorem's bound checks applied to the offset "25"
and the negated transition time "-1:30:15". -/
theorem posix_offset_and_transition_time_parsing_witness :
    (∃ msg, read_offset "25" = .error (.valueError msg)) ∧
    read_dst_transition_time "-1:30:15" = .ok (-1, -30, -15) :=
  ⟨posix_offset_and_transition_time_parsing.2.2.2.1 "25" none 25 0 0 (by decide)
      (by decide),
    posix_offset_and_transition_time_parsing.2.2.2.2.2.2 "-1:30:15" 1 30 15
      (by decide) (by decide) (by decide) (by decide)⟩
